import Mathlib

/-!
Verification development for the cat-ccnotify-hook repository.

The repository is a desktop-notification hook: it classifies a (title,
message) pair into a semantic category, styles it with an emoji, selects a
delivery method from the detected environment, and dispatches with a console
fallback.  The definitions below are shallow embeddings of the JavaScript
source functions:

- sanitizeNotificationContent   (lib/shell-executor, sanitizer)
- analyzeNotificationContent    (hooks/notification-hook, classifier)
- enhanceNotificationStyle      (hooks/notification-hook, styling)
- EnvironmentDetector           (lib/environment-detector: isSSHConnection,
  isCIEnvironment, isNonTTYEnvironment, shouldForceConsole,
  getBestNotificationMethod, detectParentApp)
- AdaptiveNotifier.sendNotification (lib/adaptive-notifier, dispatch)

JavaScript strings are modelled at the code-point level (List Char); the
lowercasing used by the classifier is modelled with the ASCII Char.toLower,
which agrees with the JavaScript toLowerCase on the ASCII letters and on the
emoji involved.  Environment variables are Option String, with JavaScript
truthiness (present and non-empty).  External processes are modelled as
oracles passed in as function arguments.
-/

set_option maxHeartbeats 2000000

namespace CatCcnotify

/-- A character removed by the sanitizer: the JavaScript regex class
x00-x08, x0B, x0C, x0E-x1F, x7F (the control characters other than tab,
newline and carriage return). -/
def isRemovedControl (c : Char) : Bool :=
  decide (c.toNat ≤ 0x08) || decide (c.toNat = 0x0B) || decide (c.toNat = 0x0C) ||
    (decide (0x0E ≤ c.toNat) && decide (c.toNat ≤ 0x1F)) || decide (c.toNat = 0x7F)

/-- Characters kept by the sanitizer. -/
def keepChar (c : Char) : Bool := !isRemovedControl c

/-- Core of sanitizeNotificationContent on the character list: strip the
control characters, then cap at 1000 characters appending the three-dot
ellipsis marker. -/
def sanitizeList (l : List Char) : List Char :=
  let s := l.filter keepChar
  if s.length > 1000 then s.take 1000 ++ ['.', '.', '.'] else s

/-- lib/shell-executor sanitizeNotificationContent. -/
def sanitizeNotificationContent (content : String) : String :=
  String.mk (sanitizeList content.data)

/-- Substring test on character lists, the model of the JavaScript
String.prototype.includes and of a literal regex test. -/
def strContainsAux (pat : List Char) : List Char → Bool
  | [] => pat.isEmpty
  | c :: rest => pat.isPrefixOf (c :: rest) || strContainsAux pat rest

/-- s contains pat as a substring. -/
def strContains (s pat : String) : Bool := strContainsAux pat.data s.data

/-- Code-point-wise lowercasing (ASCII), the model of toLowerCase for the
inputs this repository classifies. -/
def toLowerStr (s : String) : String := String.mk (s.data.map Char.toLower)

/-- One regex list matches when some literal pattern occurs in the content. -/
def matchesAny (content : String) (pats : List String) : Bool :=
  pats.any fun p => strContains content p

/-- Classifier patterns, category error. -/
def errorPats : List String :=
  ["error", "failed", "failure", "crash", "exception", "fatal",
   "❌", "🚨", "💥", "broken", "cannot", "unable", "invalid"]

/-- Classifier patterns, category warning. -/
def warningPats : List String :=
  ["warning", "caution", "attention", "notice", "deprecated",
   "⚠️", "🔔", "📢", "might", "should", "consider"]

/-- Classifier patterns, category success. -/
def successPats : List String :=
  ["complete", "success", "passed", "done", "finished", "created",
   "✅", "🎉", "✨", "deployed", "published", "installed", "ready"]

/-- Classifier patterns, category progress. -/
def progressPats : List String :=
  ["progress", "running", "processing", "installing", "building",
   "loading", "starting", "initializing", "📊", "⏳", "🔄"]

/-- Classifier patterns, category git. -/
def gitPats : List String :=
  ["git", "commit", "push", "pull", "merge", "branch", "checkout",
   "📝", "🔀", "📋", "repository", "repo"]

/-- Classifier patterns, category build. -/
def buildPats : List String :=
  ["build", "compile", "bundle", "webpack", "rollup", "vite",
   "🏗️", "📦", "typescript", "babel"]

/-- Classifier patterns, category test. -/
def testPats : List String :=
  ["test", "spec", "jest", "vitest", "cypress", "mocha", "jasmine",
   "🧪", "coverage", "assertion"]

/-- Classifier patterns, category deploy. -/
def deployPats : List String :=
  ["deploy", "publish", "release", "production", "staging",
   "🚀", "live", "server"]

/-- Classifier patterns, category npm. -/
def npmPats : List String :=
  ["npm", "yarn", "pnpm", "package", "dependency", "node_modules",
   "📦", "install", "update"]

/-- Classifier patterns, category file. -/
def filePats : List String :=
  ["file", "directory", "folder", "path", "write", "read", "save",
   "📄", "📁", "created", "modified", "deleted"]

/-- The ordered category list, in the iteration order of the source object. -/
def categoryOrder : List (String × List String) :=
  [("error", errorPats), ("warning", warningPats), ("success", successPats),
   ("progress", progressPats), ("git", gitPats), ("build", buildPats),
   ("test", testPats), ("deploy", deployPats), ("npm", npmPats),
   ("file", filePats)]

/-- The categories the classifier treats as process categories, subject to
the secondary error/success override. -/
def processCategories : List String := ["test", "build", "git", "deploy", "npm"]

/-- The classifier loop: first category whose pattern list matches wins,
with the secondary override on the process categories. -/
def classifyGo (content : String) : List (String × List String) → String
  | [] => "info"
  | (cat, pats) :: rest =>
    if matchesAny content pats then
      if processCategories.contains cat then
        if matchesAny content errorPats then "error"
        else if matchesAny content successPats then "success"
        else cat
      else cat
    else classifyGo content rest

/-- hooks/notification-hook analyzeNotificationContent on the lowercased
concatenation of title and message. -/
def analyzeNotificationContent (title message : String) : String :=
  classifyGo (toLowerStr (title ++ " " ++ message)) categoryOrder

/-- The plain first-match classifier with no override, the reference point
for the refinement claim about the override being unreachable. -/
def classifyFirstMatch (content : String) : List (String × List String) → String
  | [] => "info"
  | (cat, pats) :: rest =>
    if matchesAny content pats then cat else classifyFirstMatch content rest

/-- The plain first-match form of the classifier. -/
def analyzePlain (title message : String) : String :=
  classifyFirstMatch (toLowerStr (title ++ " " ++ message)) categoryOrder

/-- The styled payload produced by enhanceNotificationStyle. -/
structure StyledPayload where
  title : String
  message : String
  sound : String
deriving DecidableEq, Repr

/-- The emoji map of enhanceNotificationStyle; none models the undefined
lookup for a category outside the map. -/
def emojiMap (cat : String) : Option String :=
  if cat = "success" then some "✅"
  else if cat = "error" then some "❌"
  else if cat = "warning" then some "⚠️"
  else if cat = "info" then some "💡"
  else if cat = "progress" then some "⏳"
  else if cat = "file" then some "📄"
  else if cat = "git" then some "🔀"
  else if cat = "build" then some "🏗️"
  else if cat = "test" then some "🧪"
  else if cat = "npm" then some "📦"
  else if cat = "deploy" then some "🚀"
  else none

/-- The emoji-presence check of enhanceNotificationStyle: a character in the
unicode range 1F300 to 1F9FF. -/
def hasEmojiRangeChar (s : String) : Bool :=
  s.data.any fun c => decide (0x1F300 ≤ c.toNat ∧ c.toNat ≤ 0x1F9FF)

/-- Truthiness of a JavaScript string-or-undefined value: present and
non-empty. -/
def truthy : Option String → Bool
  | none => false
  | some s => s != ""

/-- The tail of getNotificationContext: the git, build and test branches
reached when the file branch falls through. -/
def getNotificationContextRest (content : String) : Option String :=
  if strContains content "git" || strContains content "commit" ||
      strContains content "push" then some ""
  else if strContains content "build" || strContains content "compile" ||
      strContains content "bundle" then some ""
  else if strContains content "test" || strContains content "spec" then some ""
  else none

/-- hooks/notification-hook getNotificationContext: every returned context
is the empty string (falsy), or null (none). -/
def getNotificationContext (title message : String) : Option String :=
  let content := toLowerStr (title ++ " " ++ message)
  if strContains content "file" || strContains content "write" ||
      strContains content "read" then
    if strContains content "created" || strContains content "added" then some ""
    else if strContains content "modified" || strContains content "updated" then some ""
    else if strContains content "deleted" || strContains content "removed" then some ""
    else getNotificationContextRest content
  else getNotificationContextRest content

/-- hooks/notification-hook enhanceNotificationStyle: prepend the category
emoji when the title has no emoji-range character, optionally prepend a
context clue to the message (always falsy in the source), and truncate the
message at 200 characters. -/
def enhanceNotificationStyle (title message soundType : String) : StyledPayload :=
  let emoji := emojiMap soundType
  let enhancedTitle :=
    match emoji with
    | some e => if hasEmojiRangeChar title then title else e ++ " " ++ title
    | none => title
  let context := getNotificationContext title message
  let enhancedMessage :=
    if truthy context then context.getD "" ++ " " ++ message else message
  let finalMessage :=
    if enhancedMessage.length > 200 then
      String.mk (enhancedMessage.data.take 197) ++ "..."
    else enhancedMessage
  ⟨enhancedTitle, finalMessage, soundType⟩

/-- An emoji character in the sense of the styling layer: a character of the
emoji range the source tests for, or one of the map glyphs that lie outside
that range. -/
def isEmojiChar (c : Char) : Bool :=
  decide (0x1F300 ≤ c.toNat ∧ c.toNat ≤ 0x1F9FF) ||
    (['✅', '❌', '⚠', '⏳'].contains c)

/-- Number of emoji characters in a string. -/
def countEmojiChars (s : String) : Nat := s.data.countP isEmojiChar

/-- The environment variables read by the environment detector, as
string-or-undefined values. -/
structure Env where
  SSH_CONNECTION : Option String
  SSH_TTY : Option String
  SSH_CLIENT : Option String
  DISPLAY : Option String
  CAT_CCNOTIFY_FORCE_CONSOLE : Option String
  CI : Option String
  CONTINUOUS_INTEGRATION : Option String
  BUILD_NUMBER : Option String
  JENKINS_URL : Option String
  GITHUB_ACTIONS : Option String
  GITLAB_CI : Option String
  CIRCLECI : Option String
  TRAVIS : Option String
  APPVEYOR : Option String
  AZURE_PIPELINES : Option String
  TEAMCITY_VERSION : Option String
deriving DecidableEq, Repr

/-- The isTTY flags of the standard streams; none models the undefined flag
of a non-stream stdio object. -/
structure TTYState where
  stdoutIsTTY : Option Bool
  stdinIsTTY : Option Bool
deriving DecidableEq, Repr

/-- The notifier-tool availability flags probed by the detector. -/
structure Capabilities where
  hasOsascript : Bool
  hasTerminalNotifier : Bool
  hasAlerter : Bool
  hasNotifySend : Bool
  hasAfplay : Bool
  hasSay : Bool
  hasEspeak : Bool
deriving DecidableEq, Repr

/-- lib/environment-detector isSSHConnection. -/
def isSSHConnection (env : Env) : Bool :=
  if truthy env.SSH_CONNECTION then
    if !truthy env.DISPLAY then true
    else if truthy env.SSH_TTY then true
    else truthy env.SSH_CLIENT
  else truthy env.SSH_CLIENT

/-- The CI indicator variables, in source order. -/
def ciIndicatorValues (env : Env) : List (Option String) :=
  [env.CI, env.CONTINUOUS_INTEGRATION, env.BUILD_NUMBER, env.JENKINS_URL,
   env.GITHUB_ACTIONS, env.GITLAB_CI, env.CIRCLECI, env.TRAVIS,
   env.APPVEYOR, env.AZURE_PIPELINES, env.TEAMCITY_VERSION]

/-- lib/environment-detector isCIEnvironment. -/
def isCIEnvironment (env : Env) : Bool := (ciIndicatorValues env).any truthy

/-- lib/environment-detector isNonTTYEnvironment: an explicitly false isTTY
flag on stdout, or on stdin, counts; an undefined flag does not. -/
def isNonTTYEnvironment (tty : TTYState) : Bool :=
  if tty.stdoutIsTTY == some false then true
  else if tty.stdinIsTTY == some false then true
  else false

/-- lib/environment-detector shouldForceConsole. -/
def shouldForceConsole (env : Env) (tty : TTYState) : Bool :=
  if isSSHConnection env then true
  else if isCIEnvironment env then true
  else if isNonTTYEnvironment tty then true
  else false

/-- lib/environment-detector getBestNotificationMethod: the force-console
override, then the automatic console heuristics, then per-platform tool
preference, then the console fallback. -/
def getBestNotificationMethod (env : Env) (tty : TTYState) (platform : String)
    (caps : Capabilities) : String :=
  if env.CAT_CCNOTIFY_FORCE_CONSOLE == some "true" then "console"
  else if shouldForceConsole env tty then "console"
  else if platform == "darwin" && caps.hasAlerter then "alerter"
  else if platform == "darwin" && caps.hasTerminalNotifier then "terminal-notifier"
  else if platform == "darwin" && caps.hasOsascript then "osascript"
  else if platform == "linux" && caps.hasNotifySend then "notify-send"
  else if platform == "win32" then "powershell"
  else "console"

/-- An environment with nothing set. -/
def emptyEnv : Env :=
  ⟨none, none, none, none, none, none, none, none, none, none, none, none,
   none, none, none, none⟩

/-- An SSH environment as in the repository tests: SSH_CONNECTION carries a
connection string and DISPLAY is unset. -/
def sshEnv : Env :=
  ⟨some "192.168.1.100 54321 192.168.1.1 22", none, none, none, none, none,
   none, none, none, none, none, none, none, none, none, none⟩

/-- An environment where SSH_CONNECTION is set but to the empty string. -/
def sshEmptySetEnv : Env :=
  ⟨some "", none, none, none, none, none, none, none, none, none, none,
   none, none, none, none, none⟩

/-- An environment whose only setting is the force-console override. -/
def forceConsoleEnv : Env :=
  ⟨none, none, none, none, some "true", none, none, none, none, none, none,
   none, none, none, none, none⟩

/-- An interactive terminal: both standard streams are TTYs. -/
def ttyInteractive : TTYState := ⟨some true, some true⟩

/-- Stdout is a TTY while stdin is explicitly not one. -/
def ttyStdinPiped : TTYState := ⟨some true, some false⟩

/-- Every notifier and sound tool available. -/
def capsAll : Capabilities := ⟨true, true, true, true, true, true, true⟩

/-- The delivery methods the adaptive notifier dispatches on. -/
inductive NotifyMethod
  | alerter
  | terminalNotifier
  | osascript
  | notifySend
  | powershell
  | console
deriving DecidableEq, Repr

/-- Outcome of one external delivery attempt: the call throws, or the
spawned process exits with the given code. -/
inductive AttemptOutcome
  | throws
  | exits (code : Nat)
deriving DecidableEq, Repr

/-- A failing attempt in the sense of the claim: it throws or exits
non-zero. -/
def attemptFails : AttemptOutcome → Bool
  | .throws => true
  | .exits c => c != 0

/-- lib/adaptive-notifier dispatch result. -/
structure DeliveryResult where
  success : Bool
  method : NotifyMethod
deriving DecidableEq, Repr

/-- An execSync-based delivery attempt, given the attempt outcome of its
external call: a thrown error is the error case, and a non-zero process
exit surfaces as a thrown execSync error. -/
def execSyncAttempt (m : NotifyMethod) (o : AttemptOutcome) :
    Except Unit DeliveryResult :=
  match o with
  | .throws => .error ()
  | .exits c => if c == 0 then .ok ⟨true, m⟩ else .error ()

/-- One delivery attempt per method.  The console writer is pure in-process
output and always succeeds.  The alerter path always throws before any
process is spawned: lib/adaptive-notifier.js is an ES module, and
sendWithAlerter calls the CommonJS require inside the Promise executor,
which is a ReferenceError in ES-module scope, so the promise rejects
whatever the would-be alerter exit code is.  The remaining methods go
through execSync. -/
def attemptDelivery (m : NotifyMethod) (o : AttemptOutcome) :
    Except Unit DeliveryResult :=
  match m with
  | .console => .ok ⟨true, .console⟩
  | .alerter => .error ()
  | .terminalNotifier => execSyncAttempt .terminalNotifier o
  | .osascript => execSyncAttempt .osascript o
  | .notifySend => execSyncAttempt .notifySend o
  | .powershell => execSyncAttempt .powershell o

/-- lib/adaptive-notifier AdaptiveNotifier.sendNotification: the iTerm2
osascript special case runs outside the try block, so its exception
propagates; otherwise the selected method runs inside the try block and any
exception falls back to the console writer. -/
def sendNotification (isITerm2 : Bool) (method : NotifyMethod)
    (outcomes : NotifyMethod → AttemptOutcome) : Except Unit DeliveryResult :=
  if isITerm2 && method == .osascript then
    attemptDelivery .osascript (outcomes .osascript)
  else
    match attemptDelivery method (outcomes method) with
    | .ok r => .ok r
    | .error _ => .ok ⟨true, .console⟩

/-- One row of the ps table, as parsed by the ancestry walk. -/
structure ProcInfo where
  pid : Nat
  ppid : Nat
  command : String
  args : String
deriving DecidableEq, Repr

/-- Outcome of one ps probe: a parsed row, an output with fewer than two
lines, or a thrown execSync error. -/
inductive PsLookup
  | ok (info : ProcInfo)
  | malformed
  | fail
deriving DecidableEq, Repr

/-- The application record the detector returns. -/
structure AppInfo where
  name : String
  bundleId : Option String
  type : String
  supportsTabFocus : Bool
deriving DecidableEq, Repr

/-- The terminal-environment facts the fallback consults. -/
structure TerminalInfo where
  isITerm2 : Bool
  isVSCode : Bool
deriving DecidableEq, Repr

/-- lib/environment-detector identifyTerminalApp. -/
def identifyTerminalApp (info : ProcInfo) : Option AppInfo :=
  if strContains info.args "iTerm.app" then
    some ⟨"iTerm2", some "com.googlecode.iterm2", "terminal", false⟩
  else if strContains info.args "Code.app" || strContains info.command "code" then
    some ⟨"Visual Studio Code", some "com.microsoft.VSCode", "editor", true⟩
  else if strContains info.args "Terminal.app" then
    some ⟨"Terminal", some "com.apple.Terminal", "terminal", false⟩
  else none

/-- lib/environment-detector getFallbackApp. -/
def getFallbackApp (ti : TerminalInfo) : AppInfo :=
  if ti.isITerm2 then ⟨"iTerm2", some "com.googlecode.iterm2", "terminal", false⟩
  else if ti.isVSCode then
    ⟨"Visual Studio Code", some "com.microsoft.VSCode", "editor", true⟩
  else ⟨"Unknown Terminal", none, "unknown", false⟩

/-- The bounded ancestry walk of detectParentApp, with the ps table as an
oracle.  Returns the application found, if any, together with the number of
ps probes issued.  The fuel mirrors the explicit level counter against
maxLevels = 15; a failed or malformed probe ends the walk. -/
def detectParentAppAux (lookup : Nat → PsLookup) : Nat → Nat → Option AppInfo × Nat
  | _, 0 => (none, 0)
  | pid, fuel + 1 =>
    if pid ≤ 1 then (none, 0)
    else
      match lookup pid with
      | .fail => (none, 1)
      | .malformed => (none, 1)
      | .ok info =>
        match identifyTerminalApp info with
        | some app => (some app, 1)
        | none =>
          let r := detectParentAppAux lookup info.ppid fuel
          (r.1, r.2 + 1)

/-- lib/environment-detector EnvironmentDetector.detectParentApp: walk at
most 15 ancestors from the parent pid; on no find, or on any probe failure,
return the fallback record. -/
def detectParentApp (lookup : Nat → PsLookup) (ppid : Nat) (ti : TerminalInfo) :
    AppInfo :=
  match (detectParentAppAux lookup ppid 15).1 with
  | some app => app
  | none => getFallbackApp ti

/-- Number of ps probes detectParentApp issues. -/
def parentProbeCount (lookup : Nat → PsLookup) (ppid : Nat) : Nat :=
  (detectParentAppAux lookup ppid 15).2

/-- Unfolding of sanitizeList without the let binding. -/
theorem sanitizeList_eq (l : List Char) :
    sanitizeList l =
      if (l.filter keepChar).length > 1000 then
        (l.filter keepChar).take 1000 ++ ['.', '.', '.']
      else l.filter keepChar := rfl

/-- Filtering the kept characters twice filters them once. -/
theorem filter_keepChar_filter (l : List Char) :
    (l.filter keepChar).filter keepChar = l.filter keepChar := by
  simp [List.filter_filter]

/-- A prefix of the filtered characters is unchanged by filtering again. -/
theorem filter_keepChar_take (l : List Char) (n : Nat) :
    ((l.filter keepChar).take n).filter keepChar = (l.filter keepChar).take n := by
  apply List.filter_eq_self.mpr
  intro a ha
  exact List.of_mem_filter (List.take_subset n (l.filter keepChar) ha)

/-- The ellipsis marker contains no control characters. -/
theorem filter_keepChar_dots :
    (['.', '.', '.'] : List Char).filter keepChar = ['.', '.', '.'] := by decide

/-- Idempotence of the sanitizer core. -/
theorem sanitizeList_idem (l : List Char) :
    sanitizeList (sanitizeList l) = sanitizeList l := by
  rw [sanitizeList_eq l]
  by_cases h : (l.filter keepChar).length > 1000
  · rw [if_pos h]
    have hlen : ((l.filter keepChar).take 1000).length = 1000 := by
      rw [List.length_take]; omega
    have hfilter :
        ((l.filter keepChar).take 1000 ++ ['.', '.', '.']).filter keepChar =
          (l.filter keepChar).take 1000 ++ ['.', '.', '.'] := by
      rw [List.filter_append, filter_keepChar_take, filter_keepChar_dots]
    have hlen2 :
        ((l.filter keepChar).take 1000 ++ (['.', '.', '.'] : List Char)).length = 1003 := by
      rw [List.length_append, hlen]
      rfl
    rw [sanitizeList_eq, hfilter, hlen2, if_pos (by omega : 1003 > 1000)]
    congr 1
    exact List.take_left' hlen
  · rw [if_neg h, sanitizeList_eq, filter_keepChar_filter, if_neg h]

/-- C4: sanitization is idempotent: for every string x,
sanitize(sanitize(x)) equals sanitize(x). -/
theorem sanitize_idempotent (x : String) :
    sanitizeNotificationContent (sanitizeNotificationContent x) =
      sanitizeNotificationContent x :=
  congrArg String.mk (sanitizeList_idem x.data)

/-- Length bound for the sanitizer core. -/
theorem sanitizeList_length_le (l : List Char) :
    (sanitizeList l).length ≤ max l.length 1003 := by
  rw [sanitizeList_eq]
  have hf := List.length_filter_le keepChar l
  by_cases h : (l.filter keepChar).length > 1000
  · rw [if_pos h, List.length_append, List.length_take]
    simp only [List.length_cons, List.length_nil]
    omega
  · rw [if_neg h]
    omega

/-- C3 amended: sanitize(x) has length at most max(length x, 1003); the
original never-lengthens bound fails only when the control-stripped content
has length 1001 or 1002, where truncation to 1000 characters plus the
three-character ellipsis yields 1003. -/
theorem sanitize_length_le (x : String) :
    (sanitizeNotificationContent x).length ≤ max x.length 1003 :=
  sanitizeList_length_le x.data

/-- C3 counterexample: a 1001-character control-free string is lengthened
by sanitization to 1003 characters. -/
theorem sanitize_lengthens_counterexample :
    (sanitizeNotificationContent (String.mk (List.replicate 1001 'a'))).length = 1003 ∧
    (String.mk (List.replicate 1001 'a')).length = 1001 := by
  constructor
  · show (sanitizeList (List.replicate 1001 'a')).length = 1003
    have hf : (List.replicate 1001 'a').filter keepChar = List.replicate 1001 'a' := by
      apply List.filter_eq_self.mpr
      intro a ha
      rw [List.eq_of_mem_replicate ha]
      decide
    rw [sanitizeList_eq, hf, List.length_replicate, if_pos (by omega : 1001 > 1000),
      List.length_append, List.length_take, List.length_replicate]
    rfl
  · show (List.replicate 1001 'a').length = 1001
    exact List.length_replicate 1001 'a'

/-- C2: the classifier maps the four scenario inputs to success, success,
error and info respectively. -/
theorem classifier_scenarios :
    analyzeNotificationContent "Build Complete" "Compilation successful" = "success" ∧
    analyzeNotificationContent "Tests Passed" "All 25 tests completed successfully!" =
      "success" ∧
    analyzeNotificationContent "Git Push Failed" "Permission denied to repository" =
      "error" ∧
    analyzeNotificationContent "Hello" "World" = "info" :=
  ⟨by decide, by decide, by decide, by decide⟩

/-- When neither the error patterns nor the success patterns match, the
override inside the process categories is dead and the classifier loop is
the first-match loop. -/
theorem classifyGo_eq_firstMatch_of_no_override (c : String)
    (he : matchesAny c errorPats = false) (hs : matchesAny c successPats = false) :
    ∀ l, classifyGo c l = classifyFirstMatch c l := by
  intro l
  induction l with
  | nil => rfl
  | cons p rest ih =>
    obtain ⟨cat, pats⟩ := p
    by_cases hm : matchesAny c pats
    · simp [classifyGo, classifyFirstMatch, hm, he, hs]
    · simp [classifyGo, classifyFirstMatch, hm, ih]

/-- C10: the secondary error/success override on the process categories is
unreachable, so the classifier is extensionally the plain first-match
classifier: whenever the loop reaches a process category, the error and
success pattern lists have already failed at their earlier entries. -/
theorem analyze_eq_plain (t m : String) :
    analyzeNotificationContent t m = analyzePlain t m := by
  unfold analyzeNotificationContent analyzePlain
  cases he : matchesAny (toLowerStr (t ++ " " ++ m)) errorPats with
  | true => simp +decide [categoryOrder, classifyGo, classifyFirstMatch, he, processCategories]
  | false =>
    cases hs : matchesAny (toLowerStr (t ++ " " ++ m)) successPats with
    | true =>
      cases hw : matchesAny (toLowerStr (t ++ " " ++ m)) warningPats <;>
        simp +decide [categoryOrder, classifyGo, classifyFirstMatch, he, hs, hw,
          processCategories]
    | false => exact classifyGo_eq_firstMatch_of_no_override _ he hs _

/-- C6: whenever the force-console override variable holds the exact string
true, the selected method is console, for every environment, stream state,
platform and capability set. -/
theorem force_console_override (env : Env) (tty : TTYState) (platform : String)
    (caps : Capabilities) (h : env.CAT_CCNOTIFY_FORCE_CONSOLE = some "true") :
    getBestNotificationMethod env tty platform caps = "console" := by
  simp [getBestNotificationMethod, h]

/-- Witness for C6: the override set in an otherwise interactive darwin
environment with every tool available still selects console. -/
theorem force_console_override_witness :
    forceConsoleEnv.CAT_CCNOTIFY_FORCE_CONSOLE = some "true" ∧
    getBestNotificationMethod forceConsoleEnv ttyInteractive "darwin" capsAll =
      "console" :=
  ⟨rfl, force_console_override forceConsoleEnv ttyInteractive "darwin" capsAll rfl⟩

/-- C7 amended: the non-TTY heuristic is true exactly when the stdout isTTY
flag is explicitly false or the stdin isTTY flag is explicitly false; an
undefined flag never counts. -/
theorem isNonTTY_iff (tty : TTYState) :
    isNonTTYEnvironment tty =
      ((tty.stdoutIsTTY == some false) || (tty.stdinIsTTY == some false)) := by
  unfold isNonTTYEnvironment
  cases h1 : (tty.stdoutIsTTY == some false) <;>
    cases h2 : (tty.stdinIsTTY == some false) <;> simp [h1, h2]

/-- C7 counterexample: with stdout a TTY and stdin explicitly not a TTY the
heuristic returns true although stdout is not explicitly non-interactive,
refuting the claimed only-if direction. -/
theorem isNonTTY_stdin_counterexample :
    isNonTTYEnvironment ttyStdinPiped = true ∧
    ttyStdinPiped.stdoutIsTTY ≠ some false := by decide

/-- C5 amended: with SSH_CONNECTION set to a non-empty value and DISPLAY
unset or empty, isSSHConnection is true and the selected method is console,
for every stream state, platform and capability set. -/
theorem ssh_forces_console (env : Env) (tty : TTYState) (platform : String)
    (caps : Capabilities) (hconn : truthy env.SSH_CONNECTION = true)
    (hdisp : truthy env.DISPLAY = false) :
    isSSHConnection env = true ∧
    getBestNotificationMethod env tty platform caps = "console" := by
  have hssh : isSSHConnection env = true := by
    simp [isSSHConnection, hconn, hdisp]
  refine ⟨hssh, ?_⟩
  cases hf : (env.CAT_CCNOTIFY_FORCE_CONSOLE == some "true") <;>
    simp [getBestNotificationMethod, shouldForceConsole, hssh, hf]

/-- C5 counterexample: SSH_CONNECTION present but equal to the empty string
is set yet falsy, so with DISPLAY unset the detector reports no SSH
connection and picks alerter on an interactive darwin host. -/
theorem ssh_empty_set_counterexample :
    sshEmptySetEnv.SSH_CONNECTION.isSome = true ∧
    sshEmptySetEnv.DISPLAY = none ∧
    isSSHConnection sshEmptySetEnv = false ∧
    getBestNotificationMethod sshEmptySetEnv ttyInteractive "darwin" capsAll =
      "alerter" := by decide

/-- Witness for C5 amended: the test-suite SSH connection string with no
DISPLAY forces console on an interactive darwin host with all tools. -/
theorem ssh_forces_console_witness :
    truthy sshEnv.SSH_CONNECTION = true ∧ truthy sshEnv.DISPLAY = false ∧
    (isSSHConnection sshEnv = true ∧
      getBestNotificationMethod sshEnv ttyInteractive "darwin" capsAll = "console") :=
  ⟨by decide, by decide,
    ssh_forces_console sshEnv ttyInteractive "darwin" capsAll (by decide) (by decide)⟩

/-- C1 counterexample: in an iTerm2 environment with osascript as the
selected method, the dispatch calls sendWithOsascript outside the try
block, so a failing osascript attempt makes sendNotification itself throw
instead of returning a success result via the console fallback. -/
theorem iterm2_osascript_counterexample :
    attemptFails AttemptOutcome.throws = true ∧
    sendNotification true NotifyMethod.osascript (fun _ => AttemptOutcome.throws) =
      Except.error () :=
  ⟨rfl, rfl⟩

/-- C1 amended: a failing delivery attempt (throw or non-zero exit) yields
an overall success result via the console fallback, except in the iTerm2
osascript direct path that runs outside the try block, where the failure
propagates to the caller.  The alerter path always throws (its in-function
require is a ReferenceError in ES-module scope) and so always reaches the
console fallback. -/
theorem dispatch_falls_back_to_console (isITerm2 : Bool) (method : NotifyMethod)
    (outcomes : NotifyMethod → AttemptOutcome)
    (hfail : attemptFails (outcomes method) = true)
    (hiterm : isITerm2 = true → method ≠ NotifyMethod.osascript) :
    sendNotification isITerm2 method outcomes =
      Except.ok ⟨true, NotifyMethod.console⟩ := by
  have hcond : (isITerm2 && (method == NotifyMethod.osascript)) = false := by
    cases isITerm2
    · rfl
    · have h := hiterm rfl
      simp [h]
  simp only [sendNotification, hcond, Bool.false_eq_true, if_false]
  cases method with
  | alerter => simp [attemptDelivery]
  | console => simp [attemptDelivery]
  | terminalNotifier =>
    cases ho : outcomes NotifyMethod.terminalNotifier with
    | throws => simp [attemptDelivery, execSyncAttempt, ho]
    | exits c =>
      rw [ho] at hfail
      have hc : (c == 0) = false := by
        simpa [attemptFails] using hfail
      simp [attemptDelivery, execSyncAttempt, ho, hc]
  | osascript =>
    cases ho : outcomes NotifyMethod.osascript with
    | throws => simp [attemptDelivery, execSyncAttempt, ho]
    | exits c =>
      rw [ho] at hfail
      have hc : (c == 0) = false := by
        simpa [attemptFails] using hfail
      simp [attemptDelivery, execSyncAttempt, ho, hc]
  | notifySend =>
    cases ho : outcomes NotifyMethod.notifySend with
    | throws => simp [attemptDelivery, execSyncAttempt, ho]
    | exits c =>
      rw [ho] at hfail
      have hc : (c == 0) = false := by
        simpa [attemptFails] using hfail
      simp [attemptDelivery, execSyncAttempt, ho, hc]
  | powershell =>
    cases ho : outcomes NotifyMethod.powershell with
    | throws => simp [attemptDelivery, execSyncAttempt, ho]
    | exits c =>
      rw [ho] at hfail
      have hc : (c == 0) = false := by
        simpa [attemptFails] using hfail
      simp [attemptDelivery, execSyncAttempt, ho, hc]

/-- Witness for C1 amended: a failing alerter attempt falls back to a
successful console delivery. -/
theorem dispatch_falls_back_witness :
    attemptFails (AttemptOutcome.exits 1) = true ∧
    sendNotification false NotifyMethod.alerter (fun _ => AttemptOutcome.exits 1) =
      Except.ok ⟨true, NotifyMethod.console⟩ :=
  ⟨rfl, dispatch_falls_back_to_console false NotifyMethod.alerter
    (fun _ => AttemptOutcome.exits 1) rfl (fun h => nomatch h)⟩

/-- Every category the classifier loop can return has an emoji in the map,
provided every category in the list does. -/
theorem emojiMap_classifyGo_isSome (c : String) :
    ∀ l : List (String × List String), (∀ p ∈ l, (emojiMap p.1).isSome = true) →
      (emojiMap (classifyGo c l)).isSome = true := by
  intro l
  induction l with
  | nil => intro _; simp +decide [classifyGo]
  | cons p rest ih =>
    intro hl
    obtain ⟨cat, pats⟩ := p
    have hcat : (emojiMap cat).isSome = true := hl (cat, pats) (List.mem_cons_self _ _)
    have hrest : ∀ q ∈ rest, (emojiMap q.1).isSome = true := by
      intro q hq
      exact hl q (List.mem_cons_of_mem _ hq)
    by_cases hm : matchesAny c pats
    · by_cases hp : cat ∈ processCategories
      · by_cases he : matchesAny c errorPats
        · simp +decide [classifyGo, hm, hp, he]
        · by_cases hs : matchesAny c successPats
          · simp +decide [classifyGo, hm, hp, he, hs]
          · simpa [classifyGo, hm, hp, he, hs] using hcat
      · simpa [classifyGo, hm, hp] using hcat
    · simpa [classifyGo, hm] using ih hrest

/-- The classifier always lands on a category with an emoji glyph. -/
theorem emojiMap_analyze_isSome (t m : String) :
    (emojiMap (analyzeNotificationContent t m)).isSome = true := by
  apply emojiMap_classifyGo_isSome
  decide

/-- C8 counterexample: the emoji-presence regex only covers the range 1F300
to 1F9FF, missing the check-mark glyph 2705, so a title already carrying
that glyph receives a second one: the styled title holds two emoji. -/
theorem double_emoji_counterexample :
    (enhanceNotificationStyle "✅ Done" "All tests passed"
        (analyzeNotificationContent "✅ Done" "All tests passed")).title =
      "✅ ✅ Done" ∧
    countEmojiChars "✅ ✅ Done" = 2 :=
  ⟨by decide, by decide⟩

/-- C8 amended: for a non-empty title the styled title is non-empty; the
category emoji is prepended exactly when the title has no character in the
range 1F300 to 1F9FF, so a title whose only emoji lies outside that range
(such as the check mark) ends up carrying two emoji. -/
theorem styled_title_emoji (t m : String) (ht : t ≠ "") :
    (enhanceNotificationStyle t m (analyzeNotificationContent t m)).title ≠ "" ∧
    (hasEmojiRangeChar t = true →
      (enhanceNotificationStyle t m (analyzeNotificationContent t m)).title = t) ∧
    (hasEmojiRangeChar t = false →
      ∃ e, emojiMap (analyzeNotificationContent t m) = some e ∧
        (enhanceNotificationStyle t m (analyzeNotificationContent t m)).title =
          e ++ " " ++ t) := by
  obtain ⟨e, he⟩ := Option.isSome_iff_exists.mp (emojiMap_analyze_isSome t m)
  cases hr : hasEmojiRangeChar t with
  | true =>
    have htitle :
        (enhanceNotificationStyle t m (analyzeNotificationContent t m)).title = t := by
      simp [enhanceNotificationStyle, he, hr]
    refine ⟨by rw [htitle]; exact ht, fun _ => htitle, fun h => ?_⟩
    simp [hr] at h
  | false =>
    have htitle :
        (enhanceNotificationStyle t m (analyzeNotificationContent t m)).title =
          e ++ " " ++ t := by
      simp [enhanceNotificationStyle, he, hr]
    refine ⟨?_, fun h => ?_, fun _ => ⟨e, he, htitle⟩⟩
    · rw [htitle]
      intro hcontra
      have hlen : (e ++ " " ++ t).length = 0 := by rw [hcontra]; rfl
      rw [String.length_append, String.length_append,
        show (" " : String).length = 1 from rfl] at hlen
      omega
    · simp [hr] at h

/-- Witness for C8 amended: the Hello World payload classifies as info and
gets the single info emoji prepended. -/
theorem styled_title_emoji_witness :
    ("Hello" : String) ≠ "" ∧
    ((enhanceNotificationStyle "Hello" "World"
        (analyzeNotificationContent "Hello" "World")).title ≠ "" ∧
      (hasEmojiRangeChar "Hello" = true →
        (enhanceNotificationStyle "Hello" "World"
          (analyzeNotificationContent "Hello" "World")).title = "Hello") ∧
      (hasEmojiRangeChar "Hello" = false →
        ∃ e, emojiMap (analyzeNotificationContent "Hello" "World") = some e ∧
          (enhanceNotificationStyle "Hello" "World"
            (analyzeNotificationContent "Hello" "World")).title =
            e ++ " " ++ "Hello")) :=
  ⟨by decide, styled_title_emoji "Hello" "World" (by decide)⟩

/-- The ancestry walk issues at most as many ps probes as it has fuel. -/
theorem detectParentAppAux_probes_le (lookup : Nat → PsLookup) :
    ∀ fuel pid, (detectParentAppAux lookup pid fuel).2 ≤ fuel := by
  intro fuel
  induction fuel with
  | zero => intro pid; simp [detectParentAppAux]
  | succ n ih =>
    intro pid
    by_cases h : pid ≤ 1
    · simp [detectParentAppAux, h]
    · cases hl : lookup pid with
      | fail => simp [detectParentAppAux, h, hl]
      | malformed => simp [detectParentAppAux, h, hl]
      | ok info =>
        cases hid : identifyTerminalApp info with
        | some app => simp [detectParentAppAux, h, hl, hid]
        | none =>
          have := ih info.ppid
          simp [detectParentAppAux, h, hl, hid]
          omega

/-- Anything the walk finds was produced by identifyTerminalApp. -/
theorem detectParentAppAux_found (lookup : Nat → PsLookup) :
    ∀ fuel pid app, (detectParentAppAux lookup pid fuel).1 = some app →
      ∃ info, identifyTerminalApp info = some app := by
  intro fuel
  induction fuel with
  | zero => intro pid app h; simp [detectParentAppAux] at h
  | succ n ih =>
    intro pid app h
    by_cases hp : pid ≤ 1
    · simp [detectParentAppAux, hp] at h
    · cases hl : lookup pid with
      | fail => simp [detectParentAppAux, hp, hl] at h
      | malformed => simp [detectParentAppAux, hp, hl] at h
      | ok info =>
        cases hid : identifyTerminalApp info with
        | some app2 =>
          simp [detectParentAppAux, hp, hl, hid] at h
          exact ⟨info, by rw [hid, h]⟩
        | none =>
          simp [detectParentAppAux, hp, hl, hid] at h
          exact ih info.ppid app h

/-- C9: for every ps oracle and start pid the ancestry walk issues at most
15 probes and returns a terminal application identified from a probed
process row or the fallback record; in particular no oracle failure can
surface to the caller. -/
theorem detectParentApp_bounded_safe (lookup : Nat → PsLookup) (ppid : Nat)
    (ti : TerminalInfo) :
    parentProbeCount lookup ppid ≤ 15 ∧
    ((∃ info, identifyTerminalApp info = some (detectParentApp lookup ppid ti)) ∨
      detectParentApp lookup ppid ti = getFallbackApp ti) := by
  refine ⟨detectParentAppAux_probes_le lookup 15 ppid, ?_⟩
  cases h : (detectParentAppAux lookup ppid 15).1 with
  | some app =>
    left
    have happ : detectParentApp lookup ppid ti = app := by
      simp [detectParentApp, h]
    rw [happ]
    exact detectParentAppAux_found lookup 15 ppid app h
  | none =>
    right
    simp [detectParentApp, h]

end CatCcnotify
